import Mathlib

/-!
Shallow embedding of `serials.py` (`run_curl_requests`): the credential and
target loading steps, the per-target curl classification logic, and the
orchestration loop that writes one report row per target. External effects
are modelled explicitly: the two input files arrive as their already-read
line/record lists, and the network is a transport oracle mapping
(url, username, password) to the observable outcome of `subprocess.run`.
-/

namespace Serials

/-- Whitespace stripped by Python `str.strip()` (the ASCII subset). -/
def isPyWs (c : Char) : Bool :=
  c = ' ' || c = '\t' || c = '\n' || c = '\r' || c = '\x0b' || c = '\x0c'

/-- Python `str.strip()`: drop leading and trailing whitespace. -/
def pyStrip (s : String) : String :=
  String.mk (((s.toList.dropWhile isPyWs).reverse.dropWhile isPyWs).reverse)

/-- Values produced by Python `json.loads`. Non-integer numbers keep their
lexeme; their numeric value never influences classification. -/
inductive Json where
  | null
  | bool (b : Bool)
  | int (n : Int)
  | float (lexeme : String)
  | str (s : String)
  | arr (elems : List Json)
  | obj (members : List (String × Json))

/-- Python type name of a JSON value, as it appears in an `AttributeError`. -/
def pyTypeName : Json → String
  | .null => "NoneType"
  | .bool _ => "bool"
  | .int _ => "int"
  | .float _ => "float"
  | .str _ => "str"
  | .arr _ => "list"
  | .obj _ => "dict"

/-- JSON insignificant whitespace, skipped between tokens by `json.loads`. -/
def skipWs : List Char → List Char
  | c :: cs => if c = ' ' || c = '\t' || c = '\n' || c = '\r' then skipWs cs else c :: cs
  | [] => []

/-- Longest prefix of decimal digits, paired with the remainder. -/
def spanDigits : List Char → List Char × List Char
  | c :: cs =>
    if c.isDigit then
      let (ds, r) := spanDigits cs
      (c :: ds, r)
    else ([], c :: cs)
  | [] => ([], [])

/-- Numeric value of a digit string. -/
def digitsVal (ds : List Char) : Nat :=
  ds.foldl (fun a c => a * 10 + (c.toNat - 48)) 0

/-- Value of one hexadecimal digit, if any. -/
def hexDigit (c : Char) : Option Nat :=
  if '0' ≤ c ∧ c ≤ '9' then some (c.toNat - 48)
  else if 'a' ≤ c ∧ c ≤ 'f' then some (c.toNat - 87)
  else if 'A' ≤ c ∧ c ≤ 'F' then some (c.toNat - 55)
  else none

/-- Single-character JSON string escapes. -/
def escChar : Char → Option Char
  | '"' => some '"'
  | '\\' => some '\\'
  | '/' => some '/'
  | 'b' => some '\x08'
  | 'f' => some '\x0c'
  | 'n' => some '\n'
  | 'r' => some '\r'
  | 't' => some '\t'
  | _ => none

/-- Body of a JSON string after the opening quote. Python strict mode:
raw control characters are rejected. -/
def lexString : List Char → List Char → Except String (String × List Char)
  | '"' :: rest, acc => .ok (String.mk acc.reverse, rest)
  | '\\' :: 'u' :: a :: b :: c :: d :: rest, acc =>
    match hexDigit a, hexDigit b, hexDigit c, hexDigit d with
    | some x, some y, some z, some w =>
      lexString rest (Char.ofNat (((x * 16 + y) * 16 + z) * 16 + w) :: acc)
    | _, _, _, _ => .error "Invalid \\uXXXX escape"
  | '\\' :: e :: rest, acc =>
    match escChar e with
    | some ch => lexString rest (ch :: acc)
    | none => .error "Invalid \\escape"
  | '\\' :: [], _ => .error "Unterminated string"
  | c :: rest, acc =>
    if c.toNat < 32 then .error "Invalid control character"
    else lexString rest (c :: acc)
  | [], _ => .error "Unterminated string"

/-- Integer part of a JSON number: `0`, or a nonzero digit followed by
digits (the grammar forbids leading zeros). -/
def lexIntPart : List Char → Option (List Char × List Char)
  | '0' :: rest => some (['0'], rest)
  | c :: rest =>
    if c.isDigit then
      let (ds, r) := spanDigits rest
      some (c :: ds, r)
    else none
  | [] => none

/-- A JSON number per the grammar
`-?(0|[1-9][0-9]*)(\.[0-9]+)?([eE][+-]?[0-9]+)?`; a fraction or exponent
that fails to match is left in the remainder rather than rejected.
Pure integers become `Json.int`; anything else keeps its lexeme. -/
def lexNumber (cs : List Char) : Except String (Json × List Char) :=
  let (neg, cs1) : Bool × List Char :=
    match cs with
    | '-' :: r => (true, r)
    | _ => (false, cs)
  match lexIntPart cs1 with
  | none => .error "Expecting value"
  | some (intDs, r1) =>
    let (fracDs, r2) : List Char × List Char :=
      match r1 with
      | '.' :: r =>
        match spanDigits r with
        | ([], _) => ([], r1)
        | (ds, rr) => (ds, rr)
      | _ => ([], r1)
    let (expCs, r3) : List Char × List Char :=
      match r2 with
      | e :: r =>
        if e = 'e' ∨ e = 'E' then
          match r with
          | s :: r' =>
            if s = '+' ∨ s = '-' then
              match spanDigits r' with
              | ([], _) => ([], r2)
              | (ds, rr) => (e :: s :: ds, rr)
            else
              match spanDigits r with
              | ([], _) => ([], r2)
              | (ds, rr) => (e :: ds, rr)
          | [] => ([], r2)
        else ([], r2)
      | [] => ([], r2)
    if fracDs = [] ∧ expCs = [] then
      .ok (.int ((if neg then -1 else 1) * (digitsVal intDs : Int)), r1)
    else
      .ok (.float (String.mk ((if neg then ['-'] else []) ++ intDs ++
        (if fracDs = [] then [] else '.' :: fracDs) ++ expCs)), r3)

mutual

/-- One JSON value (leading whitespace allowed), recursing on fuel. -/
def parseValue : Nat → List Char → Except String (Json × List Char)
  | 0, _ => .error "Expecting value"
  | fuel + 1, cs =>
    match skipWs cs with
    | '\x7b' :: r =>
      match skipWs r with
      | '\x7d' :: r' => .ok (.obj [], r')
      | r' => parseMembers fuel r' []
    | '[' :: r =>
      match skipWs r with
      | ']' :: r' => .ok (.arr [], r')
      | r' => parseItems fuel r' []
    | '"' :: r =>
      match lexString r [] with
      | .ok (s, r') => .ok (.str s, r')
      | .error e => .error e
    | 't' :: 'r' :: 'u' :: 'e' :: r => .ok (.bool true, r)
    | 'f' :: 'a' :: 'l' :: 's' :: 'e' :: r => .ok (.bool false, r)
    | 'n' :: 'u' :: 'l' :: 'l' :: r => .ok (.null, r)
    | 'N' :: 'a' :: 'N' :: r => .ok (.float "nan", r)
    | 'I' :: 'n' :: 'f' :: 'i' :: 'n' :: 'i' :: 't' :: 'y' :: r => .ok (.float "inf", r)
    | '-' :: 'I' :: 'n' :: 'f' :: 'i' :: 'n' :: 'i' :: 't' :: 'y' :: r =>
      .ok (.float "-inf", r)
    | cs' => lexNumber cs'
termination_by structural fuel _ => fuel

/-- Object members, positioned at a key (after `\x7b` or a comma). -/
def parseMembers : Nat → List Char → List (String × Json) →
    Except String (Json × List Char)
  | 0, _, _ => .error "Expecting property name enclosed in double quotes"
  | fuel + 1, cs, acc =>
    match skipWs cs with
    | '"' :: r =>
      match lexString r [] with
      | .error e => .error e
      | .ok (k, r1) =>
        match skipWs r1 with
        | ':' :: r2 =>
          match parseValue fuel r2 with
          | .error e => .error e
          | .ok (v, r3) =>
            match skipWs r3 with
            | ',' :: r4 => parseMembers fuel r4 ((k, v) :: acc)
            | '\x7d' :: r4 => .ok (.obj ((k, v) :: acc).reverse, r4)
            | _ => .error "Expecting \x27,\x27 delimiter"
        | _ => .error "Expecting \x27:\x27 delimiter"
    | _ => .error "Expecting property name enclosed in double quotes"
termination_by structural fuel _ _ => fuel

/-- Array items, positioned at a value (after `[` or a comma). -/
def parseItems : Nat → List Char → List Json → Except String (Json × List Char)
  | 0, _, _ => .error "Expecting value"
  | fuel + 1, cs, acc =>
    match parseValue fuel cs with
    | .error e => .error e
    | .ok (v, r) =>
      match skipWs r with
      | ',' :: r1 => parseItems fuel r1 (v :: acc)
      | ']' :: r1 => .ok (.arr (v :: acc).reverse, r1)
      | _ => .error "Expecting \x27,\x27 delimiter"
termination_by structural fuel _ _ => fuel

end

/-- Python `json.loads`: one value, then nothing but whitespace. The fuel
bound exceeds the total number of parser steps possible on the input. -/
def pyJsonLoads (s : String) : Except String Json :=
  let cs := s.toList
  match parseValue (2 * cs.length + 8) cs with
  | .error e => .error e
  | .ok (j, rest) => if skipWs rest = [] then .ok j else .error "Extra data"

/-- Python `dict.get`: `json.loads` keeps the last of duplicate keys. -/
def objGet (ms : List (String × Json)) (k : String) : Option Json :=
  (ms.filter (fun m => m.1 = k)).getLast?.map (·.2)

mutual

/-- Python `repr` of a JSON value (string quoting unescaped: enough for
every value classification inspects). -/
def pyRepr : Json → String
  | .null => "None"
  | .bool true => "True"
  | .bool false => "False"
  | .int n => toString n
  | .float lx => lx
  | .str s => "\x27" ++ s ++ "\x27"
  | .arr es => "[" ++ reprItems es ++ "]"
  | .obj ms => "\x7b" ++ reprMembers ms ++ "\x7d"

/-- Comma-separated `repr`s of array items. -/
def reprItems : List Json → String
  | [] => ""
  | [e] => pyRepr e
  | e :: es => pyRepr e ++ ", " ++ reprItems es

/-- Comma-separated `repr`s of object members. -/
def reprMembers : List (String × Json) → String
  | [] => ""
  | [(k, v)] => "\x27" ++ k ++ "\x27: " ++ pyRepr v
  | (k, v) :: ms => "\x27" ++ k ++ "\x27: " ++ pyRepr v ++ ", " ++ reprMembers ms

end

/-- Python `str()` of a JSON value: identity on strings, `repr` otherwise. -/
def pyStr : Json → String
  | .str s => s
  | j => pyRepr j

/-- Observable result of a completed curl invocation. -/
structure CurlResult where
  returncode : Int
  stdout : String
  stderr : String
deriving DecidableEq

/-- What `subprocess.run` of curl can do, as seen by the per-target
try block: complete, raise `FileNotFoundError`, or raise something else. -/
inductive TransportEvent where
  | completed (r : CurlResult)
  | curlNotFound
  | invocationError (msg : String)
deriving DecidableEq

/-- The distinct per-target results `run_curl_requests` can write: one
constructor per assignment to `result_to_write`. -/
inductive Outcome where
  | curlError (code : Int) (detail : String)
  | success (serial : String)
  | unexpectedResponse (body : String)
  | noResponse
  | curlMissing
  | scriptException (msg : String)
deriving DecidableEq

/-- The basic looks-like-JSON check (line 121):
`startswith(("\x7b", "[")) and endswith(("\x7d", "]"))`; with single-character
prefixes and suffixes these are checks on the first and last character. -/
def looksLikeJson (s : String) : Bool :=
  (s.toList.head? = some '\x7b' || s.toList.head? = some '[') &&
  (s.toList.getLast? = some '\x7d' || s.toList.getLast? = some ']')

/-- Classification of a completed curl run (lines 110–136), including the
exceptions the surrounding handler turns into `SCRIPT EXCEPTION` rows: a
`json.loads` failure, or `.get` on a parsed non-dict (`AttributeError`). -/
def classifyResult (p : CurlResult) : Outcome :=
  let api_response := pyStrip p.stdout
  let curl_stderr := pyStrip p.stderr
  if p.returncode ≠ 0 then
    .curlError p.returncode
      (if curl_stderr ≠ "" then curl_stderr else "Unknown curl error or connection issue.")
  else if api_response ≠ "" then
    if looksLikeJson api_response then
      match pyJsonLoads api_response with
      | .ok (.obj members) =>
        .success (pyStr ((objGet members "sn").getD (.str "SN_NOT_FOUND")))
      | .ok j =>
        .scriptException ("\x27" ++ pyTypeName j ++ "\x27 object has no attribute \x27get\x27")
      | .error e => .scriptException e
    else .unexpectedResponse api_response
  else .noResponse

/-- Per-target outcome for each way the try block can go (lines 95–143). -/
def classifyEvent : TransportEvent → Outcome
  | .completed p => classifyResult p
  | .curlNotFound => .curlMissing
  | .invocationError m => .scriptException m

/-- The exact `result_to_write` string for each outcome. -/
def render : Outcome → String
  | .curlError code detail => "CURL ERROR (Exit Code " ++ toString code ++ "): " ++ detail
  | .success serial => serial
  | .unexpectedResponse body => "UNEXPECTED RESPONSE: " ++ body
  | .noResponse => "No API response received (might be empty or timeout)."
  | .curlMissing =>
    "ERROR: \x27curl\x27 command not found. Please ensure curl is installed and accessible in your system\x27s PATH."
  | .scriptException m => "SCRIPT EXCEPTION: An error occurred during curl execution: " ++ m

/-- The network as an oracle: url, username, password ↦ transport event. -/
abbrev Transport := String → String → String → TransportEvent

/-- URL built for a target (line 76). -/
def urlFor (server_address : String) : String :=
  "https://" ++ server_address ++ "/api/v1/systeminfo/?format=json"

/-- One loop iteration: the row written for one target (lines 74–146). -/
def processTarget (username password : String) (tr : Transport)
    (server_address : String) : List String :=
  [server_address, render (classifyEvent (tr (urlFor server_address) username password))]

/-- Data rows of the report: one per target, in order. -/
def reportRows (username password : String) (tr : Transport)
    (targets : List String) : List (List String) :=
  targets.map (processTarget username password tr)

/-- Header row written first (line 71). -/
def reportHeader : List String := ["Server Address", "Serial Number"]

/-- Target loading (lines 50–52): first field of each nonempty record,
stripped, blank entries discarded. -/
def loadTargets (rows : List (List String)) : List String :=
  rows.filterMap fun row =>
    match row with
    | [] => none
    | c :: _ =>
      let t := pyStrip c
      if t ≠ "" then some t else none

/-- How a run can end: one fatal constructor per early `return`, or the
completed report (header row first). -/
inductive RunResult where
  | fatalPasswordTooShort
  | fatalEmptyUsername
  | fatalEmptyPassword
  | fatalNoTargets
  | report (rows : List (List String))
deriving DecidableEq

/-- Observable trace of a run: outcome, urls queried in order, and whether
the results file was opened (and hence overwritten). -/
structure RunTrace where
  result : RunResult
  queries : List String
  sinkOpened : Bool
deriving DecidableEq

/-- The whole of `run_curl_requests` over already-read inputs:
`passwordLines` are the credential file's lines, `listRows` the csv
records, `tr` the network oracle. Checks happen in source order: credential
shape, then usable targets, then the sink is opened and the loop runs. -/
def run_curl_requests (passwordLines : List String) (listRows : List (List String))
    (tr : Transport) : RunTrace :=
  if passwordLines.length < 2 then ⟨.fatalPasswordTooShort, [], false⟩
  else
    let username := pyStrip (passwordLines.getD 0 "")
    let password := pyStrip (passwordLines.getD 1 "")
    if username = "" then ⟨.fatalEmptyUsername, [], false⟩
    else if password = "" then ⟨.fatalEmptyPassword, [], false⟩
    else
      let server_list := loadTargets listRows
      if server_list = [] then ⟨.fatalNoTargets, [], false⟩
      else
        ⟨.report (reportHeader :: reportRows username password tr server_list),
         server_list.map urlFor, true⟩

/-- A fixed transport oracle (exit 0, empty body) used to instantiate
universally quantified results at concrete runs. -/
def trProbe : Transport := fun _ _ _ => .completed ⟨0, "", ""⟩

/-- A transport oracle that fails for the target `h1` and succeeds with an
empty body for every other url. -/
def trFailH1 : Transport := fun url _ _ =>
  if url = urlFor "h1" then .completed ⟨6, "", "no route"⟩ else .completed ⟨0, "", ""⟩

/-- Claim C1: for every target sequence of length N, the report holds exactly
N data rows after the header, and the i-th data row's first column is the
i-th target, regardless of per-target outcomes. -/
theorem report_row_count_and_order (u p : String) (tr : Transport)
    (ts : List String) (i : Nat) (h : i < ts.length) :
    (reportRows u p tr ts).length = ts.length ∧
    ∃ row, (reportRows u p tr ts)[i]? = some row ∧ row.head? = some ts[i] := by
  refine ⟨by simp [reportRows], processTarget u p tr ts[i], ?_, rfl⟩
  simp [reportRows, List.getElem?_eq_getElem h]

/-- Witness for C1 on a concrete two-target batch. -/
theorem report_row_count_and_order_witness :
    (reportRows "u" "p" trProbe ["h1", "h2"]).length =
      (["h1", "h2"] : List String).length ∧
    ∃ row, (reportRows "u" "p" trProbe ["h1", "h2"])[1]? = some row ∧
      row.head? = some (["h1", "h2"] : List String)[1] :=
  report_row_count_and_order "u" "p" trProbe ["h1", "h2"] 1 (by decide)

/-- Claim C2: no per-target failure aborts the loop or skips later targets,
and target i+1's row is a function of its own transport result alone: two
oracles agreeing on target i+1 yield the same row there, whatever they did
at target i. -/
theorem failure_isolation (u p : String) (ts : List String) (tr tr' : Transport)
    (i : Nat) (h : i + 1 < ts.length)
    (hagree : tr (urlFor ts[i + 1]) u p = tr' (urlFor ts[i + 1]) u p) :
    (reportRows u p tr ts).length = ts.length ∧
    (reportRows u p tr ts)[i + 1]? = some (processTarget u p tr ts[i + 1]) ∧
    (reportRows u p tr ts)[i + 1]? = (reportRows u p tr' ts)[i + 1]? := by
  refine ⟨by simp [reportRows], ?_, ?_⟩
  · simp [reportRows, List.getElem?_eq_getElem h]
  · simp [reportRows, List.getElem?_eq_getElem h, processTarget, hagree]

/-- Witness for C2: a transport failure at `h1` leaves the `h2` row equal to
the one an everywhere-successful oracle produces. -/
theorem failure_isolation_witness :
    (reportRows "u" "p" trFailH1 ["h1", "h2"]).length =
      (["h1", "h2"] : List String).length ∧
    (reportRows "u" "p" trFailH1 ["h1", "h2"])[0 + 1]? =
      some (processTarget "u" "p" trFailH1 (["h1", "h2"] : List String)[0 + 1]) ∧
    (reportRows "u" "p" trFailH1 ["h1", "h2"])[0 + 1]? =
      (reportRows "u" "p" trProbe ["h1", "h2"])[0 + 1]? :=
  failure_isolation "u" "p" ["h1", "h2"] trFailH1 trProbe 0 (by decide) (by decide)

/-- Claim C3 as stated is false on the code: the body `\x7bbroken\x7d` passes the
bracket check and is not valid JSON, yet the outcome is the script-exception
row, not the MalformedResponse (UNEXPECTED RESPONSE) one. -/
theorem parse_failure_not_malformed_counterexample :
    classifyResult ⟨0, "\x7bbroken\x7d", ""⟩ =
      .scriptException "Expecting property name enclosed in double quotes" ∧
    classifyResult ⟨0, "\x7bbroken\x7d", ""⟩ ≠ .unexpectedResponse "\x7bbroken\x7d" := by
  decide

/-- Claim C3 amended: a body passing the bracket check that fails to parse is
caught by the per-target handler and becomes that row's script-exception
outcome — the batch neither crashes nor loses a row — but the outcome kind is
the generic script exception, not MalformedResponse. -/
theorem parse_failure_downgraded_to_script_exception (r : CurlResult)
    (h0 : r.returncode = 0) (hne : pyStrip r.stdout ≠ "")
    (hjson : looksLikeJson (pyStrip r.stdout) = true)
    (e : String) (herr : pyJsonLoads (pyStrip r.stdout) = .error e) :
    classifyResult r = .scriptException e ∧
    ∀ u p tr ts, (reportRows u p tr ts).length = ts.length := by
  refine ⟨?_, fun u p tr ts => by simp [reportRows]⟩
  simp [classifyResult, h0, hne, hjson, herr]

/-- Witness for C3 amended at the body `\x7bbroken\x7d`. -/
theorem parse_failure_downgraded_to_script_exception_witness :
    classifyResult ⟨0, "\x7bbroken\x7d", ""⟩ =
      .scriptException "Expecting property name enclosed in double quotes" ∧
    ∀ u p tr ts, (reportRows u p tr ts).length = ts.length :=
  parse_failure_downgraded_to_script_exception ⟨0, "\x7bbroken\x7d", ""⟩ rfl
    (by decide) (by decide) "Expecting property name enclosed in double quotes" rfl

/-- Claim C4 as stated is false on the code: with valid credentials and a
target list with zero usable entries the run returns the fatal-no-targets
result without opening the sink, so no header-only report is produced. -/
theorem empty_targets_no_header_only_report :
    (run_curl_requests ["u", "p"] [] trProbe).result = .fatalNoTargets ∧
    (run_curl_requests ["u", "p"] [] trProbe).sinkOpened = false ∧
    (run_curl_requests ["u", "p"] [] trProbe).result ≠ .report [reportHeader] := by
  decide

/-- Claim C4 amended: a zero-length target sequence (after blanks are
discarded) is a fatal configuration error: the run aborts before opening the
report sink, issues no queries, and produces no report at all. -/
theorem empty_targets_fatal (pw : List String) (rows : List (List String))
    (tr : Transport) (hlen : ¬ pw.length < 2)
    (hu : pyStrip (pw.getD 0 "") ≠ "") (hp : pyStrip (pw.getD 1 "") ≠ "")
    (hempty : loadTargets rows = []) :
    run_curl_requests pw rows tr = ⟨.fatalNoTargets, [], false⟩ := by
  have hu' := hu
  have hp' := hp
  simp only [List.getD_eq_getElem?_getD] at hu' hp'
  simp [run_curl_requests, hlen, hu', hp', hempty]

/-- Witness for C4 amended: a list whose only record has a blank first field. -/
theorem empty_targets_fatal_witness :
    run_curl_requests ["u", "p"] [[" "]] trProbe = ⟨.fatalNoTargets, [], false⟩ :=
  empty_targets_fatal ["u", "p"] [[" "]] trProbe (by decide) (by decide) (by decide)
    (by decide)

/-- Claim C5 as stated is false on the code: the check requires only some
opening bracket at the start and some closing bracket at the end, not a
matching pair — the mixed body `\x7b0]` passes it, a parse is attempted, and
the outcome is the script-exception row, not MalformedResponse. -/
theorem mixed_bracket_body_not_malformed :
    looksLikeJson "\x7b0]" = true ∧
    classifyResult ⟨0, "\x7b0]", ""⟩ ≠ .unexpectedResponse "\x7b0]" ∧
    classifyResult ⟨0, "\x7b0]", ""⟩ =
      .scriptException "Expecting property name enclosed in double quotes" := by
  decide

/-- Claim C5 amended: for exit 0 and non-empty trimmed stdout, the outcome is
MalformedResponse (UNEXPECTED RESPONSE) exactly when the trimmed output fails
the bracket check — which does not require the brackets to match, so a mixed
body passes it and goes to the JSON parse instead. -/
theorem malformed_iff_fails_bracket_check (r : CurlResult)
    (h0 : r.returncode = 0) (hne : pyStrip r.stdout ≠ "") :
    classifyResult r = .unexpectedResponse (pyStrip r.stdout) ↔
      looksLikeJson (pyStrip r.stdout) = false := by
  rcases hb : looksLikeJson (pyStrip r.stdout) with _ | _
  · simp [classifyResult, h0, hne, hb]
  · rcases hj : pyJsonLoads (pyStrip r.stdout) with e | j
    · simp [classifyResult, h0, hne, hb, hj]
    · cases j <;> simp [classifyResult, h0, hne, hb, hj]

/-- Witness for C5 amended at the body `not json at all`. -/
theorem malformed_iff_fails_bracket_check_witness :
    classifyResult ⟨0, "not json at all", ""⟩ =
      .unexpectedResponse (pyStrip "not json at all") ↔
      looksLikeJson (pyStrip "not json at all") = false :=
  malformed_iff_fails_bracket_check ⟨0, "not json at all", ""⟩ rfl (by decide)

/-- Claim C6: for exit 0 and a valid top-level JSON object, the `sn` field
value is the row on success and the sentinel `SN_NOT_FOUND` is still a
success row when the field is absent. -/
theorem sn_extraction_cases :
    classifyResult ⟨0, "\x7b\"sn\": \"ABC123\", \"other\": 1\x7d", ""⟩ =
      .success "ABC123" ∧
    classifyResult ⟨0, "\x7b\"other\": 1\x7d", ""⟩ = .success "SN_NOT_FOUND" ∧
    classifyResult ⟨0, "\x7b\x7d", ""⟩ = .success "SN_NOT_FOUND" := by
  decide

/-- Claim C7: a non-zero exit yields the TransportFailure (CURL ERROR) row
carrying that exit code and the trimmed stderr, or the fixed fallback text
when trimmed stderr is empty; stdout is not inspected. -/
theorem nonzero_exit_transport_failure (r : CurlResult) (h : r.returncode ≠ 0) :
    classifyResult r = .curlError r.returncode
      (if pyStrip r.stderr ≠ "" then pyStrip r.stderr
       else "Unknown curl error or connection issue.") ∧
    ∀ out, classifyResult ⟨r.returncode, out, r.stderr⟩ = classifyResult r := by
  exact ⟨by simp [classifyResult, h], fun out => by simp [classifyResult, h]⟩

/-- Witness for C7 at exit code 6 with a resolver error on stderr. -/
theorem nonzero_exit_transport_failure_witness :
    classifyResult ⟨6, "ignored body", "Could not resolve host"⟩ =
      .curlError (6 : Int)
        (if pyStrip "Could not resolve host" ≠ "" then pyStrip "Could not resolve host"
         else "Unknown curl error or connection issue.") ∧
    ∀ out, classifyResult ⟨(6 : Int), out, "Could not resolve host"⟩ =
      classifyResult ⟨6, "ignored body", "Could not resolve host"⟩ :=
  nonzero_exit_transport_failure ⟨6, "ignored body", "Could not resolve host"⟩ (by decide)

/-- Claim C8: exit 0 with empty trimmed stdout yields the EmptyResponse
(no-API-response) row, whatever stderr holds. -/
theorem empty_body_empty_response (r : CurlResult) (h0 : r.returncode = 0)
    (hempty : pyStrip r.stdout = "") :
    classifyResult r = .noResponse ∧
    ∀ err, classifyResult ⟨r.returncode, r.stdout, err⟩ = .noResponse := by
  exact ⟨by simp [classifyResult, h0, hempty],
    fun err => by simp [classifyResult, h0, hempty]⟩

/-- Witness for C8 on a whitespace-only body with non-empty stderr. -/
theorem empty_body_empty_response_witness :
    classifyResult ⟨0, "  ", "warning text"⟩ = .noResponse ∧
    ∀ err, classifyResult ⟨(0 : Int), "  ", err⟩ = .noResponse :=
  empty_body_empty_response ⟨0, "  ", "warning text"⟩ rfl (by decide)

/-- Claim C9: malformed credentials (fewer than two lines, or a blank first
or second line after trimming) abort the run before any query is issued: no
urls are queried, the report sink is never opened, and the result is one of
the credential-fatal outcomes. -/
theorem bad_credentials_abort (pw : List String) (rows : List (List String))
    (tr : Transport)
    (h : pw.length < 2 ∨ pyStrip (pw.getD 0 "") = "" ∨ pyStrip (pw.getD 1 "") = "") :
    (run_curl_requests pw rows tr).queries = [] ∧
    (run_curl_requests pw rows tr).sinkOpened = false ∧
    ((run_curl_requests pw rows tr).result = .fatalPasswordTooShort ∨
     (run_curl_requests pw rows tr).result = .fatalEmptyUsername ∨
     (run_curl_requests pw rows tr).result = .fatalEmptyPassword) := by
  by_cases hl : pw.length < 2
  · simp [run_curl_requests, hl]
  · have h' : pyStrip (pw.getD 0 "") = "" ∨ pyStrip (pw.getD 1 "") = "" := by
      rcases h with h | h | h
      · exact absurd h hl
      · exact Or.inl h
      · exact Or.inr h
    by_cases hu : pyStrip (pw.getD 0 "") = ""
    · have hu' := hu
      simp only [List.getD_eq_getElem?_getD] at hu'
      simp [run_curl_requests, hl, hu']
    · have hp : pyStrip (pw.getD 1 "") = "" := h'.resolve_left hu
      have hu' := hu
      have hp' := hp
      simp only [List.getD_eq_getElem?_getD] at hu' hp'
      simp [run_curl_requests, hl, hu', hp']

/-- Witness for C9 on a one-line credential file. -/
theorem bad_credentials_abort_witness :
    (run_curl_requests ["only-user"] [["h1"]] trProbe).queries = [] ∧
    (run_curl_requests ["only-user"] [["h1"]] trProbe).sinkOpened = false ∧
    ((run_curl_requests ["only-user"] [["h1"]] trProbe).result = .fatalPasswordTooShort ∨
     (run_curl_requests ["only-user"] [["h1"]] trProbe).result = .fatalEmptyUsername ∨
     (run_curl_requests ["only-user"] [["h1"]] trProbe).result = .fatalEmptyPassword) :=
  bad_credentials_abort ["only-user"] [["h1"]] trProbe (Or.inl (by decide))

/-- Claim C10: a valid top-level JSON array passes the bracket check and
parses, `.get` then fails with an AttributeError caught by the handler: the
row is the script-exception rendering, neither Success nor MalformedResponse,
and the one-row-per-target shape of the loop is untouched. -/
theorem array_body_script_exception :
    classifyResult ⟨0, "[1, 2]", ""⟩ =
      .scriptException "\x27list\x27 object has no attribute \x27get\x27" ∧
    (∀ s, classifyResult ⟨0, "[1, 2]", ""⟩ ≠ .success s) ∧
    (∀ b, classifyResult ⟨0, "[1, 2]", ""⟩ ≠ .unexpectedResponse b) ∧
    ∀ u p tr ts, (reportRows u p tr ts).length = ts.length := by
  have h : classifyResult ⟨0, "[1, 2]", ""⟩ =
      .scriptException "\x27list\x27 object has no attribute \x27get\x27" := by decide
  refine ⟨h, ?_, ?_, fun u p tr ts => by simp [reportRows]⟩
  · intro s hs
    rw [h] at hs
    exact Outcome.noConfusion hs
  · intro b hb
    rw [h] at hb
    exact Outcome.noConfusion hb

end Serials
